import Mathlib

/-!
Verification development for the runtime mesh section core
(`Source/RuntimeMeshComponent/Public/RuntimeMeshSection.h`).

The C++ data structures are shallowly embedded: `TArray` becomes `List`,
`FVector` a triple of integer coordinates (the claims under study are
structural and order-theoretic, never about floating-point rounding),
`FBox` the Unreal axis-aligned box with its `Min`/`Max` corners and
validity flag, and the section classes a single state record parameterised
over the vertex record type.  Trait-dispatched template functions
(`HasPosition` vs `!HasPosition`) become two Lean functions, one per
instantiation.  External collaborators (the render proxy, the archive
version registry, the tessellation generator of `RuntimeMeshLibrary`)
enter as explicit parameters.
-/

set_option autoImplicit false

/-- A 3-component vector, embedding `FVector`. -/
structure FVector where
  x : Int
  y : Int
  z : Int
deriving DecidableEq

/-- Componentwise minimum of two vectors, as used by `FBox::operator+=`. -/
def vmin (a b : FVector) : FVector :=
  ⟨min a.x b.x, min a.y b.y, min a.z b.z⟩

/-- Componentwise maximum of two vectors, as used by `FBox::operator+=`. -/
def vmax (a b : FVector) : FVector :=
  ⟨max a.x b.x, max a.y b.y, max a.z b.z⟩

/-- The zero vector. -/
def zeroVector : FVector := ⟨0, 0, 0⟩

/-- Embedding of Unreal `FBox`: corner points plus the validity flag. -/
structure FBox where
  BoxMin : FVector
  BoxMax : FVector
  IsValid : Bool
deriving DecidableEq

/-- `FBox(0)` / `FBox::Init()`: zero corners, invalid (empty) box. -/
def FBox.Init : FBox := ⟨zeroVector, zeroVector, false⟩

/-- `FBox::operator+=(const FVector&)`: grow the box to include a point;
an invalid box becomes the degenerate box at that point. -/
def FBox.addPoint (b : FBox) (p : FVector) : FBox :=
  if b.IsValid then ⟨vmin b.BoxMin p, vmax b.BoxMax p, true⟩
  else ⟨p, p, true⟩

/-- `FBox::operator==`: field-wise comparison of the two corner points only
(the validity flag does not participate), so two empty boxes are equal. -/
def FBox.eqBox (a b : FBox) : Bool :=
  decide (a.BoxMin = b.BoxMin ∧ a.BoxMax = b.BoxMax)

/-- Modelled from the spec: `EUpdateFrequency` is declared outside the
provided sources; the spec gives its three values and that it is
serialised through a 32-bit integer cast. -/
inductive EUpdateFrequency where
  | Average
  | Frequent
  | Infrequent
deriving DecidableEq

/-- The `(int32)UpdateFrequency` cast used by `Serialize`. -/
def EUpdateFrequency.toInt32 : EUpdateFrequency → Int
  | .Average => 0
  | .Frequent => 1
  | .Infrequent => 2

/-- The `(EUpdateFrequency)UpdateFreq` cast used by `Serialize` on load. -/
def EUpdateFrequency.ofInt32 : Int → EUpdateFrequency
  | 1 => .Frequent
  | 2 => .Infrequent
  | _ => .Average

/-- A vertex record of a layout whose `FRuntimeMeshVertexTraits` has
`HasPosition = true`: a `Position` field plus remaining attributes,
abstracted into one integer payload. -/
structure VertexWithPosition where
  Position : FVector
  Attr : Int
deriving DecidableEq

/-- A vertex record of a layout with `HasPosition = false` (dual-buffer
layouts keep positions in the separate position-only stream): attributes
only. -/
structure VertexNoPosition where
  Attr : Int
deriving DecidableEq

/-- State of `FRuntimeMeshSectionInterface` together with the
`FRuntimeMeshSection<VertexType>::VertexBuffer` of the concrete templated
subclass, parameterised by the vertex record type. -/
structure SectionState (α : Type) where
  bNeedsPositionOnlyBuffer : Bool
  PositionVertexBuffer : List FVector
  IndexBuffer : List Int
  TessellationIndexBuffer : List Int
  LocalBoundingBox : FBox
  CollisionEnabled : Bool
  bIsVisible : Bool
  bCastsShadow : Bool
  bShouldUseAdjacencyIndexBuffer : Bool
  UpdateFrequency : EUpdateFrequency
  VertexBuffer : List α
deriving DecidableEq

/-- The copy-branch loop of `UpdateVertexPositionBuffer` with no supplied
box: accumulates the bounding box and copies each element in one pass. -/
def copyAndBound : FBox → List FVector → FBox × List FVector
  | b, [] => (b, [])
  | b, v :: rest =>
    let r := copyAndBound (b.addPoint v) rest
    (r.1, v :: r.2)

/-- `FRuntimeMeshSectionInterface::UpdateVertexPositionBuffer`: replaces
the position-only stream (by move or copy), computes the new bounding box
from the positions unless one is supplied, and updates the stored box only
when the new box differs under `FBox::operator==`; returns whether it did. -/
def UpdateVertexPositionBuffer {α : Type} (s : SectionState α)
    (Positions : List FVector) (BoundingBox : Option FBox)
    (bShouldMoveArray : Bool) : SectionState α × Bool :=
  let pair : List FVector × FBox :=
    if bShouldMoveArray then
      match BoundingBox with
      | none => (Positions, Positions.foldl FBox.addPoint FBox.Init)
      | some bb => (Positions, bb)
    else
      match BoundingBox with
      | none =>
        let r := copyAndBound FBox.Init Positions
        (r.2, r.1)
      | some bb => (Positions, bb)
  if !FBox.eqBox s.LocalBoundingBox pair.2 then
    ({ s with PositionVertexBuffer := pair.1, LocalBoundingBox := pair.2 }, true)
  else
    ({ s with PositionVertexBuffer := pair.1 }, false)

/-- `FRuntimeMeshSectionInterface::UpdateIndexBuffer`: unconditional
replacement of the plain index buffer (by move or copy). -/
def UpdateIndexBuffer {α : Type} (s : SectionState α) (Triangles : List Int)
    (bShouldMoveArray : Bool) : SectionState α :=
  if bShouldMoveArray then { s with IndexBuffer := Triangles }
  else { s with IndexBuffer := Triangles }

/-- `FRuntimeMeshSectionInterface::UpdateTessellationIndexBuffer`:
unconditional replacement of the tessellation index buffer. -/
def UpdateTessellationIndexBuffer {α : Type} (s : SectionState α)
    (Triangles : List Int) (bShouldMoveArray : Bool) : SectionState α :=
  if bShouldMoveArray then { s with TessellationIndexBuffer := Triangles }
  else { s with TessellationIndexBuffer := Triangles }

/-- The copy-branch loop of `UpdateVertexBufferInternal` (HasPosition
instantiation) with no supplied box. -/
def copyAndBoundVertices : FBox → List VertexWithPosition → FBox × List VertexWithPosition
  | b, [] => (b, [])
  | b, v :: rest =>
    let r := copyAndBoundVertices (b.addPoint v.Position) rest
    (r.1, v :: r.2)

/-- `RuntimeMeshSectionInternal::UpdateVertexBufferInternal`, the
`HasPosition` instantiation: replaces the vertex buffer, computes the new
box from the embedded `Position` fields unless one is supplied, updates the
stored box only on difference; returns (new buffer, new box, changed). -/
def UpdateVertexBufferInternalHasPosition
    (VertexBuffer : List VertexWithPosition) (LocalBoundingBox : FBox)
    (Vertices : List VertexWithPosition) (BoundingBox : Option FBox)
    (bShouldMoveArray : Bool) : List VertexWithPosition × FBox × Bool :=
  let pair : List VertexWithPosition × FBox :=
    if bShouldMoveArray then
      match BoundingBox with
      | none => (Vertices, Vertices.foldl (fun b v => b.addPoint v.Position) FBox.Init)
      | some bb => (Vertices, bb)
    else
      match BoundingBox with
      | none =>
        let r := copyAndBoundVertices FBox.Init Vertices
        (r.2, r.1)
      | some bb => (Vertices, bb)
  if !FBox.eqBox LocalBoundingBox pair.2 then (pair.1, pair.2, true)
  else (pair.1, LocalBoundingBox, false)

/-- `RuntimeMeshSectionInternal::UpdateVertexBufferInternal`, the
`!HasPosition` instantiation: replaces the vertex buffer (by move or
copy), never touches the box, always returns false. -/
def UpdateVertexBufferInternalNoPosition
    (VertexBuffer : List VertexNoPosition) (LocalBoundingBox : FBox)
    (Vertices : List VertexNoPosition) (BoundingBox : Option FBox)
    (bShouldMoveArray : Bool) : List VertexNoPosition × FBox × Bool :=
  if bShouldMoveArray then (Vertices, LocalBoundingBox, false)
  else (Vertices, LocalBoundingBox, false)

/-- `FRuntimeMeshSection<VertexType>::UpdateVertexBuffer` for a
`!HasPosition` (dual-buffer) layout, threading the state record through
the internal helper. -/
def SectionUpdateVertexBufferNoPosition (s : SectionState VertexNoPosition)
    (Vertices : List VertexNoPosition) (BoundingBox : Option FBox)
    (bShouldMoveArray : Bool) : SectionState VertexNoPosition × Bool :=
  let r := UpdateVertexBufferInternalNoPosition s.VertexBuffer s.LocalBoundingBox
    Vertices BoundingBox bShouldMoveArray
  ({ s with VertexBuffer := r.1, LocalBoundingBox := r.2.1 }, r.2.2)

/-- `RuntimeMeshSectionInternal::GetAllVertexPositions`, `HasPosition`
instantiation: appends each vertex's embedded position to the output
array and returns the vertex count. -/
def GetAllVertexPositionsHasPosition (VertexBuffer : List VertexWithPosition)
    (PositionVertexBuffer : List FVector) (Positions : List FVector) :
    List FVector × Nat :=
  (VertexBuffer.foldl (fun ps v => ps ++ [v.Position]) Positions, VertexBuffer.length)

/-- `RuntimeMeshSectionInternal::GetAllVertexPositions`, `!HasPosition`
instantiation: appends the position-only stream to the output array and
returns that stream's length. -/
def GetAllVertexPositionsNoPosition (VertexBuffer : List VertexNoPosition)
    (PositionVertexBuffer : List FVector) (Positions : List FVector) :
    List FVector × Nat :=
  (Positions ++ PositionVertexBuffer, PositionVertexBuffer.length)

/-- `FRuntimeMeshSection<VertexType>::GetAllVertexPositions` for a
`!HasPosition` layout. -/
def SectionGetAllVertexPositionsNoPosition (s : SectionState VertexNoPosition)
    (Positions : List FVector) : List FVector × Nat :=
  GetAllVertexPositionsNoPosition s.VertexBuffer s.PositionVertexBuffer Positions

/-- `FRuntimeMeshSection<VertexType>::GetAllVertexPositions` for a
`HasPosition` layout. -/
def SectionGetAllVertexPositionsHasPosition (s : SectionState VertexWithPosition)
    (Positions : List FVector) : List FVector × Nat :=
  GetAllVertexPositionsHasPosition s.VertexBuffer s.PositionVertexBuffer Positions

/-- The creation payload `FRuntimeMeshSectionCreateData<VertexType>`
(buffer-related fields; the render proxy pointer is external). -/
structure SectionCreateData (α : Type) where
  PositionVertexBuffer : List FVector
  VertexBuffer : List α
  IndexBuffer : List Int
  bIsAdjacencyIndexBuffer : Bool
deriving DecidableEq

/-- `FRuntimeMeshSection<VertexType>::GetSectionCreationData`.  The
render proxy is an external collaborator; its
`ShouldUseAdjacencyIndexBuffer()` answer enters as the parameter
`proxyShouldUseAdjacencyIndexBuffer`.  The function (through a
`const_cast`) overwrites the section's `bShouldUseAdjacencyIndexBuffer`
with that answer before selecting between the tessellation and plain
index buffers, so it returns the payload together with the mutated
section state. -/
def GetSectionCreationData {α : Type} (s : SectionState α)
    (proxyShouldUseAdjacencyIndexBuffer : Bool) :
    SectionCreateData α × SectionState α :=
  let posBuf : List FVector :=
    if s.bNeedsPositionOnlyBuffer then s.PositionVertexBuffer else []
  let s1 : SectionState α :=
    { s with bShouldUseAdjacencyIndexBuffer := proxyShouldUseAdjacencyIndexBuffer }
  if s1.bShouldUseAdjacencyIndexBuffer && decide (0 < s1.TessellationIndexBuffer.length) then
    ({ PositionVertexBuffer := posBuf, VertexBuffer := s.VertexBuffer,
       IndexBuffer := s.TessellationIndexBuffer, bIsAdjacencyIndexBuffer := true }, s1)
  else
    ({ PositionVertexBuffer := posBuf, VertexBuffer := s.VertexBuffer,
       IndexBuffer := s.IndexBuffer, bIsAdjacencyIndexBuffer := false }, s1)

/-- The update payload `FRuntimeMeshSectionUpdateData<VertexType>`;
non-included buffers stay default-constructed (empty / false). -/
structure SectionUpdateData (α : Type) where
  bIncludePositionBuffer : Bool
  bIncludeVertexBuffer : Bool
  bIncludeIndices : Bool
  PositionVertexBuffer : List FVector
  VertexBuffer : List α
  IndexBuffer : List Int
  bIsAdjacencyIndexBuffer : Bool
deriving DecidableEq

/-- `FRuntimeMeshSection<VertexType>::GetSectionUpdateData`: selective
copy driven by the three inclusion flags; when indices are included the
same tessellation-vs-plain selection rule as creation runs, here reading
the section's current `bShouldUseAdjacencyIndexBuffer` unmodified. -/
def GetSectionUpdateData {α : Type} (s : SectionState α)
    (bIncludePositionVertices bIncludeVertices bIncludeIndices : Bool) :
    SectionUpdateData α :=
  let pvb : List FVector :=
    if bIncludePositionVertices then s.PositionVertexBuffer else []
  let vb : List α := if bIncludeVertices then s.VertexBuffer else []
  let idxPair : List Int × Bool :=
    if bIncludeIndices then
      if s.bShouldUseAdjacencyIndexBuffer && decide (0 < s.TessellationIndexBuffer.length) then
        (s.TessellationIndexBuffer, true)
      else
        (s.IndexBuffer, false)
    else ([], false)
  { bIncludePositionBuffer := bIncludePositionVertices,
    bIncludeVertexBuffer := bIncludeVertices,
    bIncludeIndices := bIncludeIndices,
    PositionVertexBuffer := pvb, VertexBuffer := vb,
    IndexBuffer := idxPair.1, bIsAdjacencyIndexBuffer := idxPair.2 }

/-- `FRuntimeMeshSection<VertexType>::GenerateTessellationIndices`.  The
adjacency-generation algorithm itself lives in `RuntimeMeshLibrary`
(external to this header), so the generated list enters as a parameter;
the function stores it through `UpdateTessellationIndexBuffer` with move
semantics, as the source does. -/
def GenerateTessellationIndices {α : Type} (s : SectionState α)
    (TessellationIndices : List Int) : SectionState α :=
  UpdateTessellationIndexBuffer s TessellationIndices true

/-- One field written to / read from an `FArchive` by
`FRuntimeMeshSectionInterface::Serialize`. -/
inductive ArchiveField where
  | vectorArray (ps : List FVector)
  | int32Array (xs : List Int)
  | box (b : FBox)
  | boolField (b : Bool)
  | int32Field (n : Int)
deriving DecidableEq

/-- Modelled from the spec: `FRuntimeMeshVersion` (RuntimeMeshVersion.h)
is not among the provided sources; the spec says position data is gated
on archive versions at or above the dual-vertex-buffer feature version,
modelled as this threshold in a monotonically increasing version line. -/
def DualVertexBufferVersion : Nat := 2

/-- `FRuntimeMeshSectionInterface::Serialize` in the saving direction:
the sequence of fields written, in order: [positions (version-gated)],
indices, bounding box, collision flag, visibility flag, update-frequency
as int32. -/
def SerializeSave {α : Type} (s : SectionState α) (CustomVer : Nat) :
    List ArchiveField :=
  (if DualVertexBufferVersion ≤ CustomVer then
    [ArchiveField.vectorArray s.PositionVertexBuffer]
  else []) ++
  [ArchiveField.int32Array s.IndexBuffer,
   ArchiveField.box s.LocalBoundingBox,
   ArchiveField.boolField s.CollisionEnabled,
   ArchiveField.boolField s.bIsVisible,
   ArchiveField.int32Field s.UpdateFrequency.toInt32]

/-- The unconditional tail of `Serialize` in the loading direction:
indices, box, collision flag, visibility flag, update frequency (cast
back from int32). -/
def loadTail {α : Type} (s : SectionState α) :
    List ArchiveField → Option (SectionState α)
  | ArchiveField.int32Array idx :: ArchiveField.box bb ::
    ArchiveField.boolField ce :: ArchiveField.boolField vis ::
    ArchiveField.int32Field uf :: _ =>
      some { s with
             IndexBuffer := idx, LocalBoundingBox := bb,
             CollisionEnabled := ce, bIsVisible := vis,
             UpdateFrequency := EUpdateFrequency.ofInt32 uf }
  | _ => none

/-- `FRuntimeMeshSectionInterface::Serialize` in the loading direction:
reads the position buffer only when the archive's custom version is at or
above the dual-vertex-buffer version, then the fixed tail; `none` on a
stream that does not match the expected field shapes. -/
def SerializeLoad {α : Type} (s : SectionState α) (CustomVer : Nat)
    (Ar : List ArchiveField) : Option (SectionState α) :=
  if DualVertexBufferVersion ≤ CustomVer then
    match Ar with
    | ArchiveField.vectorArray ps :: rest =>
        loadTail { s with PositionVertexBuffer := ps } rest
    | _ => none
  else loadTail s Ar

/-- A freshly constructed section
(`FRuntimeMeshSectionInterface(bInNeedsPositionOnlyBuffer)`): empty
buffers, `LocalBoundingBox(0)`, collision off, visible, casting shadows.
The constructor leaves `bShouldUseAdjacencyIndexBuffer` and
`UpdateFrequency` unset; they are modelled at fixed defaults. -/
def freshSection (α : Type) (bInNeedsPositionOnlyBuffer : Bool) : SectionState α :=
  { bNeedsPositionOnlyBuffer := bInNeedsPositionOnlyBuffer,
    PositionVertexBuffer := [], IndexBuffer := [],
    TessellationIndexBuffer := [], LocalBoundingBox := FBox.Init,
    CollisionEnabled := false, bIsVisible := true, bCastsShadow := true,
    bShouldUseAdjacencyIndexBuffer := false,
    UpdateFrequency := EUpdateFrequency.Average, VertexBuffer := [] }

/-- Spec-side definition: the tight axis-aligned bounding box of a
position sequence, stated from the spec's words — componentwise minimum
and maximum over the points, the degenerate (invalid) box for the empty
sequence. -/
def specTightBox : List FVector → FBox
  | [] => FBox.Init
  | p :: ps => ⟨ps.foldl vmin p, ps.foldl vmax p, true⟩

/-- Spec-side definition: the bounds an update call is asked to install —
the supplied box when present, else the box computed by scanning the
positions. -/
def requestedBox (Positions : List FVector) : Option FBox → FBox
  | none => Positions.foldl FBox.addPoint FBox.Init
  | some bb => bb

/-- Spec-side definition: the bounds an embedded-position vertex update
is asked to install. -/
def requestedVertexBox (Vertices : List VertexWithPosition) : Option FBox → FBox
  | none => Vertices.foldl (fun b v => b.addPoint v.Position) FBox.Init
  | some bb => bb

theorem copyAndBound_eq (ps : List FVector) : ∀ b : FBox,
    copyAndBound b ps = (ps.foldl FBox.addPoint b, ps) := by
  induction ps with
  | nil => intro b; rfl
  | cons p rest ih => intro b; simp [copyAndBound, ih, List.foldl_cons]

theorem copyAndBoundVertices_eq (vs : List VertexWithPosition) : ∀ b : FBox,
    copyAndBoundVertices b vs = (vs.foldl (fun b v => b.addPoint v.Position) b, vs) := by
  induction vs with
  | nil => intro b; rfl
  | cons v rest ih => intro b; simp [copyAndBoundVertices, ih, List.foldl_cons]

theorem foldl_addPoint_fromValid (ps : List FVector) : ∀ m M : FVector,
    ps.foldl FBox.addPoint ⟨m, M, true⟩ = ⟨ps.foldl vmin m, ps.foldl vmax M, true⟩ := by
  induction ps with
  | nil => intro m M; rfl
  | cons p rest ih => intro m M; simp [List.foldl_cons, FBox.addPoint, ih]

theorem computeBox_eq_specTightBox (ps : List FVector) :
    ps.foldl FBox.addPoint FBox.Init = specTightBox ps := by
  cases ps with
  | nil => rfl
  | cons p rest =>
    have h1 : FBox.Init.addPoint p = ⟨p, p, true⟩ := rfl
    simp [List.foldl_cons, h1, foldl_addPoint_fromValid, specTightBox]

theorem eqBox_refl (b : FBox) : FBox.eqBox b b = true := by
  simp [FBox.eqBox]

theorem ofInt32_toInt32 (f : EUpdateFrequency) :
    EUpdateFrequency.ofInt32 f.toInt32 = f := by
  cases f <;> rfl

theorem updatePositions_eq {α : Type} (s : SectionState α) (P : List FVector)
    (bb : Option FBox) (move : Bool) :
    UpdateVertexPositionBuffer s P bb move =
      if FBox.eqBox s.LocalBoundingBox (requestedBox P bb) then
        ({ s with PositionVertexBuffer := P }, false)
      else
        ({ s with PositionVertexBuffer := P, LocalBoundingBox := requestedBox P bb }, true) := by
  cases bb <;> cases move <;>
    simp only [UpdateVertexPositionBuffer, requestedBox, copyAndBound_eq] <;>
    (split <;> split <;> simp_all)

theorem updateVertexInternal_eq (vb : List VertexWithPosition) (lbb : FBox)
    (verts : List VertexWithPosition) (bb : Option FBox) (move : Bool) :
    UpdateVertexBufferInternalHasPosition vb lbb verts bb move =
      if FBox.eqBox lbb (requestedVertexBox verts bb) then (verts, lbb, false)
      else (verts, requestedVertexBox verts bb, true) := by
  cases bb <;> cases move <;>
    simp only [UpdateVertexBufferInternalHasPosition, requestedVertexBox,
      copyAndBoundVertices_eq] <;>
    (split <;> split <;> simp_all)

theorem foldl_positions_append (l : List VertexWithPosition) : ∀ acc : List FVector,
    l.foldl (fun ps v => ps ++ [v.Position]) acc = acc ++ l.map VertexWithPosition.Position := by
  induction l with
  | nil => intro acc; simp
  | cons v rest ih => intro acc; simp [List.foldl_cons, ih]

/-- C1: for every position sequence P, `UpdateVertexPositionBuffer` with no
explicit bounds leaves the stored bounds equal — under the source's
field-wise box comparison `FBox::operator==`, which identifies all empty
boxes — to the tight axis-aligned box of P (empty P giving the degenerate
box), and with an explicit box B it leaves the stored bounds equal to B
regardless of P's actual extents. -/
theorem updatePositions_bounds {α : Type} (s : SectionState α)
    (P : List FVector) (move : Bool) (B : FBox) :
    FBox.eqBox (UpdateVertexPositionBuffer s P none move).1.LocalBoundingBox
      (specTightBox P) = true ∧
    FBox.eqBox (UpdateVertexPositionBuffer s P (some B) move).1.LocalBoundingBox
      B = true := by
  have hreq : requestedBox P none = specTightBox P := by
    simp [requestedBox, computeBox_eq_specTightBox]
  constructor
  · rw [updatePositions_eq, hreq]
    cases h : FBox.eqBox s.LocalBoundingBox (specTightBox P) <;>
      simp [h, eqBox_refl]
  · rw [updatePositions_eq]
    cases h : FBox.eqBox s.LocalBoundingBox (requestedBox P (some B)) <;>
      simp_all [requestedBox, eqBox_refl]

/-- C3: `UpdateVertexPositionBuffer` returns true exactly when the newly
computed or supplied bounds differs, under the field-wise box comparison,
from the bounds stored immediately before the call; in particular, a
second call with identical positions and no explicit bounds returns
false. -/
theorem updatePositions_returns_boundsChanged {α : Type} (s : SectionState α)
    (P : List FVector) (bb : Option FBox) (move move2 : Bool) :
    (UpdateVertexPositionBuffer s P bb move).2 =
      !FBox.eqBox s.LocalBoundingBox (requestedBox P bb) ∧
    (UpdateVertexPositionBuffer
      (UpdateVertexPositionBuffer s P none move).1 P none move2).2 = false := by
  constructor
  · rw [updatePositions_eq]
    cases h : FBox.eqBox s.LocalBoundingBox (requestedBox P bb) <;> simp [h]
  · simp only [updatePositions_eq]
    cases h : FBox.eqBox s.LocalBoundingBox (requestedBox P none) <;>
      simp [h, eqBox_refl]

/-- C5: for a dual-buffer (position-external) layout, the vertex-buffer
update replaces only the attribute vertex stream, always returns false,
and leaves the stored bounds and every other field unchanged, whatever
vertices, explicit-bounds argument and move flag are passed. -/
theorem updateVertexBuffer_dualBuffer_frame (s : SectionState VertexNoPosition)
    (Vertices : List VertexNoPosition) (BoundingBox : Option FBox) (move : Bool) :
    SectionUpdateVertexBufferNoPosition s Vertices BoundingBox move =
      ({ s with VertexBuffer := Vertices }, false) := by
  cases move <;> rfl

/-- C6: `GetAllVertexPositions` on a dual-buffer section produces exactly
the position-only stream, unmodified, with its count — whatever the
attribute vertex buffer holds; on an embedded-position layout it produces
the per-record extracted positions of the vertex buffer with their
count. -/
theorem getAllVertexPositions_result (sd : SectionState VertexNoPosition)
    (se : SectionState VertexWithPosition) :
    SectionGetAllVertexPositionsNoPosition sd [] =
      (sd.PositionVertexBuffer, sd.PositionVertexBuffer.length) ∧
    SectionGetAllVertexPositionsHasPosition se [] =
      (se.VertexBuffer.map VertexWithPosition.Position, se.VertexBuffer.length) := by
  constructor
  · rfl
  · simp [SectionGetAllVertexPositionsHasPosition, GetAllVertexPositionsHasPosition,
      foldl_positions_append]

/-- C7: the move-semantics flag is observationally irrelevant — each
buffer-update operation produces identical final buffer contents, final
bounds and boundsChanged result with the flag true or false. -/
theorem moveSemantics_observational_equivalence {α : Type} (s : SectionState α)
    (P : List FVector) (bb : Option FBox) (vb verts : List VertexWithPosition)
    (vbn vertsn : List VertexNoPosition) (lbb : FBox) (tris : List Int) :
    UpdateVertexPositionBuffer s P bb true = UpdateVertexPositionBuffer s P bb false ∧
    UpdateVertexBufferInternalHasPosition vb lbb verts bb true =
      UpdateVertexBufferInternalHasPosition vb lbb verts bb false ∧
    UpdateVertexBufferInternalNoPosition vbn lbb vertsn bb true =
      UpdateVertexBufferInternalNoPosition vbn lbb vertsn bb false ∧
    UpdateIndexBuffer s tris true = UpdateIndexBuffer s tris false ∧
    UpdateTessellationIndexBuffer s tris true = UpdateTessellationIndexBuffer s tris false := by
  refine ⟨?_, ?_, rfl, rfl, rfl⟩
  · rw [updatePositions_eq, updatePositions_eq]
  · rw [updateVertexInternal_eq, updateVertexInternal_eq]

/-- C8: `UpdateIndexBuffer` and `UpdateTessellationIndexBuffer`
unconditionally replace their own index buffer with the supplied sequence
and leave the bounds, position buffer, vertex buffer, the other index
buffer and all flags unchanged. -/
theorem updateIndices_frame {α : Type} (s : SectionState α) (tris : List Int)
    (move : Bool) :
    UpdateIndexBuffer s tris move = { s with IndexBuffer := tris } ∧
    UpdateTessellationIndexBuffer s tris move =
      { s with TessellationIndexBuffer := tris } := by
  cases move <;> exact ⟨rfl, rfl⟩

/-- C10: `GetAllVertexPositions` appends to the caller-supplied output
array without clearing it: afterwards the array is its prior contents
followed by the section's positions, and the returned count is the number
of positions appended, not the array's total length. -/
theorem getAllVertexPositions_appends (vbn : List VertexNoPosition)
    (vb : List VertexWithPosition) (pvb A : List FVector) :
    GetAllVertexPositionsNoPosition vbn pvb A = (A ++ pvb, pvb.length) ∧
    GetAllVertexPositionsHasPosition vb pvb A =
      (A ++ vb.map VertexWithPosition.Position, vb.length) := by
  constructor
  · rfl
  · simp [GetAllVertexPositionsHasPosition, foldl_positions_append]

/-- C9: `GetSectionCreationData`, though declared const, overwrites the
section's `bShouldUseAdjacencyIndexBuffer` (through a `const_cast`) with
the newly created render proxy's reported capability before performing
index-buffer selection: the post-call state differs from the input only in
that flag, which equals the proxy's answer, and the selection depends on
the proxy's answer and tessellation-buffer non-emptiness alone — any value
the caller set beforehand is discarded rather than driving the
selection. -/
theorem creationSnapshot_overwrites_adjacency_flag {α : Type}
    (s : SectionState α) (proxyCap : Bool) :
    (GetSectionCreationData s proxyCap).2 =
      { s with bShouldUseAdjacencyIndexBuffer := proxyCap } ∧
    (GetSectionCreationData s proxyCap).1.IndexBuffer =
      (if proxyCap && decide (0 < s.TessellationIndexBuffer.length) then
        s.TessellationIndexBuffer else s.IndexBuffer) ∧
    (GetSectionCreationData s proxyCap).1.bIsAdjacencyIndexBuffer =
      (proxyCap && decide (0 < s.TessellationIndexBuffer.length)) := by
  unfold GetSectionCreationData
  cases proxyCap <;> by_cases h : 0 < s.TessellationIndexBuffer.length <;>
    simp [h]

/-- C2 (amended): index-buffer selection for snapshots. After
`GenerateTessellationIndices` has stored a generated list, the creation
snapshot selects the tessellation buffer exactly when the newly created
render proxy reports adjacency-index support and that list is non-empty —
the caller's pre-set `bShouldUseAdjacencyIndexBuffer` is overwritten with
the proxy's answer before selection, so it does not drive creation-snapshot
selection — while the update snapshot with indices included selects the
tessellation buffer exactly when the section's current flag is set and the
tessellation buffer is non-empty; in all other cases (including an empty
tessellation buffer with the flag set) the plain index buffer is chosen. -/
theorem snapshot_index_selection {α : Type} (s : SectionState α)
    (generated : List Int) (proxyCap incP incV : Bool) :
    (GetSectionCreationData (GenerateTessellationIndices s generated)
        proxyCap).1.IndexBuffer =
      (if proxyCap && decide (0 < generated.length) then generated
       else s.IndexBuffer) ∧
    (GetSectionUpdateData (GenerateTessellationIndices s generated)
        incP incV true).IndexBuffer =
      (if s.bShouldUseAdjacencyIndexBuffer && decide (0 < generated.length) then
        generated else s.IndexBuffer) := by
  unfold GenerateTessellationIndices UpdateTessellationIndexBuffer
    GetSectionCreationData GetSectionUpdateData
  cases proxyCap <;> cases hf : s.bShouldUseAdjacencyIndexBuffer <;>
    by_cases h : 0 < generated.length <;> simp [h, hf]

/-- A dual-buffer section whose plain and tessellation index buffers are
distinct and whose adjacency flag was set by the caller, the tessellation
buffer populated through `GenerateTessellationIndices`. -/
def exSectionC2 : SectionState VertexNoPosition :=
  GenerateTessellationIndices
    { freshSection VertexNoPosition true with
      IndexBuffer := [0, 1, 2], bShouldUseAdjacencyIndexBuffer := true }
    [0, 1, 2, 3, 4, 5]

/-- C2 counterexample: the adjacency flag is set true and the tessellation
buffer is non-empty, yet a creation snapshot built against a proxy that
reports no adjacency support selects the plain index buffer, not the
tessellation one. -/
theorem creationSnapshot_flag_counterexample :
    exSectionC2.bShouldUseAdjacencyIndexBuffer = true ∧
    0 < exSectionC2.TessellationIndexBuffer.length ∧
    (GetSectionCreationData exSectionC2 false).1.IndexBuffer ≠
      exSectionC2.TessellationIndexBuffer ∧
    (GetSectionCreationData exSectionC2 false).1.IndexBuffer =
      exSectionC2.IndexBuffer := by
  decide

/-- C4 (amended): serialising a section and deserialising the stream into
a fresh section of the same layout at the same archive version reproduces
the index buffer, bounding box, collision flag, visibility flag and
update-frequency exactly; the position buffer is reproduced for versions
at or above the dual-vertex-buffer version and left empty below it — so
below that version it round-trips exactly when the original position
buffer was empty.  Fields outside the serialised set (shadow flag,
tessellation buffer, adjacency flag, vertex buffer) keep the fresh
section's defaults. -/
theorem serialize_roundTrip {α : Type} (s : SectionState α) (v : Nat)
    (dual : Bool) :
    SerializeLoad (freshSection α dual) v (SerializeSave s v) =
      some { freshSection α dual with
             PositionVertexBuffer :=
               if DualVertexBufferVersion ≤ v then s.PositionVertexBuffer
               else [],
             IndexBuffer := s.IndexBuffer,
             LocalBoundingBox := s.LocalBoundingBox,
             CollisionEnabled := s.CollisionEnabled,
             bIsVisible := s.bIsVisible,
             UpdateFrequency := s.UpdateFrequency } := by
  by_cases h : DualVertexBufferVersion ≤ v <;>
    simp [SerializeSave, SerializeLoad, loadTail, freshSection, h, ofInt32_toInt32]

/-- A single-buffer section with an empty position stream and otherwise
non-default serialised fields. -/
def exSectionC4 : SectionState VertexNoPosition :=
  { freshSection VertexNoPosition false with
    IndexBuffer := [0, 1, 2], CollisionEnabled := true }

/-- C4 counterexample: at archive version 0, below the dual-vertex-buffer
version, the position buffer of this section still round-trips (both
sides empty), so "the position buffer round-trips if and only if the
stream was written at or above the dual-vertex-buffer format version"
fails in its only-if direction. -/
theorem serialize_positions_roundtrip_below_version :
    Option.map SectionState.PositionVertexBuffer
      (SerializeLoad (freshSection VertexNoPosition false) 0
        (SerializeSave exSectionC4 0)) =
      some exSectionC4.PositionVertexBuffer ∧
    ¬ DualVertexBufferVersion ≤ 0 := by
  decide
